import Mathlib

/-!
Verification of `torch_rechub/models/multi_task/dcnv2.py` (NISE repository).

The file defines three multi-task prediction heads (`DCN4ESMM`, `DCN4DCMT`,
`DCN4DR`).  Each owns one shared embedding layer and several prediction
towers; the embedding layer (`EmbeddingLayer`) and the tower (`DCN4CVR`) are
external collaborators, so they are modelled here as abstract functions:
the embedding maps a feature list and one example to a per-feature list of
embedding vectors (the source's `[num_features, embed_dim]` slice of the
batch tensor), and each tower maps a flattened rational vector to one scalar.
Tensor values are modelled as rationals; a batch is a list of examples and
the vectorised torch operations act example-wise, so `forward` is the map of
a per-example row function over the batch.  `torch.clamp(v, min, max)` is
`min (max v lo) hi`.  The Python constructors evaluate `user_features[0]`
and `item_features[0]`, which raises `IndexError` on an empty list; the
constructors are therefore modelled as `Option`-returning functions that
yield `none` exactly when the source raises.
-/

namespace NISE

/-- Source line 6: `clip_min = 1e-15`. -/
def clip_min : ℚ := 1 / 10 ^ 15

/-- Source line 7: `clip_max = 1-1e-15`. -/
def clip_max : ℚ := 1 - 1 / 10 ^ 15

/-- `torch.clamp(v, min=clip_min, max=clip_max)`: values below `clip_min`
become `clip_min`, values above `clip_max` become `clip_max` (inclusive
clipping). -/
def clampQ (v : ℚ) : ℚ := min (max v clip_min) clip_max

/-- A feature declaration: the models only read `embed_dim` (and the length
of the feature lists), so only those are modelled. -/
structure FeatureSpec where
  name : String
  embed_dim : ℕ
deriving Repr, DecidableEq

/-- The `tower_dims` expression shared by all three constructors
(source lines 21, 63, 112):
`len(user_features) * user_features[0].embed_dim
 + len(item_features) * item_features[0].embed_dim`.
Accessing element `[0]` of an empty Python list raises `IndexError`,
modelled by `none`. -/
def towerDimsCalc (user_features item_features : List FeatureSpec) : Option ℕ :=
  match user_features.head?, item_features.head? with
  | some u0, some i0 =>
      some (user_features.length * u0.embed_dim
            + item_features.length * i0.embed_dim)
  | _, _ => none

/-- State of a constructed `DCN4ESMM` model (source lines 9-28).
`embedding` is the single shared `EmbeddingLayer`; the two towers are the
external `DCN4CVR` estimators together with their learned parameters,
abstracted as functions from the flattened input vector to a scalar. -/
structure DCN4ESMM (α : Type) where
  user_features : List FeatureSpec
  item_features : List FeatureSpec
  embedding : List FeatureSpec → α → List (List ℚ)
  tower_dims : ℕ
  tower_cvr : List ℚ → ℚ
  tower_ctr : List ℚ → ℚ

/-- `DCN4ESMM.__init__` (source lines 11-28): stores the feature lists,
builds the shared embedding, computes `tower_dims`; fails (`none`) when a
feature list is empty, as `user_features[0]` / `item_features[0]` does. -/
def DCN4ESMM.init {α : Type} (user_features item_features : List FeatureSpec)
    (embedding : List FeatureSpec → α → List (List ℚ))
    (tower_cvr tower_ctr : List ℚ → ℚ) : Option (DCN4ESMM α) :=
  match towerDimsCalc user_features item_features with
  | some d =>
      some ⟨user_features, item_features, embedding, d, tower_cvr, tower_ctr⟩
  | none => none

/-- The tower input built in every `forward` (e.g. source lines 32-36):
embed user features and item features with the shared embedding, flatten
each (`reshape(_batch_size, -1)` is per-example concatenation of the
per-feature vectors, i.e. `join`), then `torch.cat(..., dim=1)`. -/
def DCN4ESMM.inputTower {α : Type} (m : DCN4ESMM α) (ex : α) : List ℚ :=
  (m.embedding m.user_features ex).flatten ++ (m.embedding m.item_features ex).flatten

/-- One example's row of `DCN4ESMM.forward` (source lines 30-47): raw tower
outputs, raw product, then clamping of each of the three outputs, returned
in the order `[cvr, ctr, ctcvr]`. -/
def DCN4ESMM.forwardRow {α : Type} (m : DCN4ESMM α) (ex : α) : List ℚ :=
  let input_tower := m.inputTower ex
  let cvr_pred := m.tower_cvr input_tower
  let ctr_pred := m.tower_ctr input_tower
  let ctcvr_pred := cvr_pred * ctr_pred
  [clampQ cvr_pred, clampQ ctr_pred, clampQ ctcvr_pred]

/-- `DCN4ESMM.forward` on a batch: the vectorised torch computation acts
independently on each example. -/
def DCN4ESMM.forward {α : Type} (m : DCN4ESMM α) (x : List α) : List (List ℚ) :=
  x.map m.forwardRow

/-- State of a constructed `DCN4DCMT` model (source lines 50-75): three
towers — cvr, counterfactual cvr, ctr. -/
structure DCN4DCMT (α : Type) where
  user_features : List FeatureSpec
  item_features : List FeatureSpec
  embedding : List FeatureSpec → α → List (List ℚ)
  tower_dims : ℕ
  tower_cvr : List ℚ → ℚ
  tower_counterfactual_cvr : List ℚ → ℚ
  tower_ctr : List ℚ → ℚ

/-- `DCN4DCMT.__init__` (source lines 52-75); `none` on an empty feature
list (source line 63). -/
def DCN4DCMT.init {α : Type} (user_features item_features : List FeatureSpec)
    (embedding : List FeatureSpec → α → List (List ℚ))
    (tower_cvr tower_counterfactual_cvr tower_ctr : List ℚ → ℚ) :
    Option (DCN4DCMT α) :=
  match towerDimsCalc user_features item_features with
  | some d =>
      some ⟨user_features, item_features, embedding, d,
            tower_cvr, tower_counterfactual_cvr, tower_ctr⟩
  | none => none

/-- Shared tower input of `DCN4DCMT.forward` (source lines 79-83). -/
def DCN4DCMT.inputTower {α : Type} (m : DCN4DCMT α) (ex : α) : List ℚ :=
  (m.embedding m.user_features ex).flatten ++ (m.embedding m.item_features ex).flatten

/-- One example's row of `DCN4DCMT.forward` (source lines 77-96): the ctcvr
product uses the raw cvr and ctr outputs only (line 87), and the returned
order is `[cvr, counterfactual_cvr, ctr, ctcvr]` (line 94). -/
def DCN4DCMT.forwardRow {α : Type} (m : DCN4DCMT α) (ex : α) : List ℚ :=
  let input_tower := m.inputTower ex
  let cvr_pred := m.tower_cvr input_tower
  let counterfactual_cvr_pred := m.tower_counterfactual_cvr input_tower
  let ctr_pred := m.tower_ctr input_tower
  let ctcvr_pred := cvr_pred * ctr_pred
  [clampQ cvr_pred, clampQ counterfactual_cvr_pred, clampQ ctr_pred,
   clampQ ctcvr_pred]

/-- `DCN4DCMT.forward` on a batch. -/
def DCN4DCMT.forward {α : Type} (m : DCN4DCMT α) (x : List α) : List (List ℚ) :=
  x.map m.forwardRow

/-- State of a constructed `DCN4DR` model (source lines 99-124): three
towers — cvr, ctr, imputation. -/
structure DCN4DR (α : Type) where
  user_features : List FeatureSpec
  item_features : List FeatureSpec
  embedding : List FeatureSpec → α → List (List ℚ)
  tower_dims : ℕ
  tower_cvr : List ℚ → ℚ
  tower_ctr : List ℚ → ℚ
  tower_imputation : List ℚ → ℚ

/-- `DCN4DR.__init__` (source lines 101-124); `none` on an empty feature
list (source line 112). -/
def DCN4DR.init {α : Type} (user_features item_features : List FeatureSpec)
    (embedding : List FeatureSpec → α → List (List ℚ))
    (tower_cvr tower_ctr tower_imputation : List ℚ → ℚ) : Option (DCN4DR α) :=
  match towerDimsCalc user_features item_features with
  | some d =>
      some ⟨user_features, item_features, embedding, d,
            tower_cvr, tower_ctr, tower_imputation⟩
  | none => none

/-- Shared tower input of `DCN4DR.forward` (source lines 128-132). -/
def DCN4DR.inputTower {α : Type} (m : DCN4DR α) (ex : α) : List ℚ :=
  (m.embedding m.user_features ex).flatten ++ (m.embedding m.item_features ex).flatten

/-- One example's row of `DCN4DR.forward` (source lines 126-145): ctcvr is
the raw product (line 135) and the returned order is
`[cvr, ctr, ctcvr, imputation]` (line 143). -/
def DCN4DR.forwardRow {α : Type} (m : DCN4DR α) (ex : α) : List ℚ :=
  let input_tower := m.inputTower ex
  let cvr_pred := m.tower_cvr input_tower
  let ctr_pred := m.tower_ctr input_tower
  let ctcvr_pred := cvr_pred * ctr_pred
  let imputation_pred := m.tower_imputation input_tower
  [clampQ cvr_pred, clampQ ctr_pred, clampQ ctcvr_pred, clampQ imputation_pred]

/-- `DCN4DR.forward` on a batch. -/
def DCN4DR.forward {α : Type} (m : DCN4DR α) (x : List α) : List (List ℚ) :=
  x.map m.forwardRow

/- Concrete instances used by witnesses and counterexamples. -/

/-- A concrete user feature. -/
def featU : FeatureSpec := ⟨"user_id", 2⟩

/-- A concrete item feature. -/
def featI : FeatureSpec := ⟨"item_id", 2⟩

/-- A concrete embedding: each feature embeds every example as a zero vector
of its declared dimension. -/
def constEmbed : List FeatureSpec → ℚ → List (List ℚ) :=
  fun fs _ => fs.map (fun f => List.replicate f.embed_dim 0)

/-- A tower that always outputs 0 (a raw output at the degenerate lower
end, which the clamp maps to `clip_min`). -/
def zeroTower : List ℚ → ℚ := fun _ => 0

/-- A tower that always outputs 1/2. -/
def halfTower : List ℚ → ℚ := fun _ => 1 / 2

/-- Concrete `DCN4ESMM` whose towers both output 0. -/
def cexESMM : DCN4ESMM ℚ :=
  { user_features := [featU], item_features := [featI],
    embedding := constEmbed, tower_dims := 4,
    tower_cvr := zeroTower, tower_ctr := zeroTower }

/-- Concrete well-behaved `DCN4DCMT`. -/
def okDCMT : DCN4DCMT ℚ :=
  { user_features := [featU], item_features := [featI],
    embedding := constEmbed, tower_dims := 4,
    tower_cvr := halfTower, tower_counterfactual_cvr := halfTower,
    tower_ctr := halfTower }

/-- Concrete `DCN4DR` whose towers all output 0. -/
def cexDR : DCN4DR ℚ :=
  { user_features := [featU], item_features := [featI],
    embedding := constEmbed, tower_dims := 4,
    tower_cvr := zeroTower, tower_ctr := zeroTower,
    tower_imputation := zeroTower }

/- Helper lemmas shared by the claim theorems. -/

/-- The clamp bounds are ordered. -/
theorem clip_min_le_clip_max : clip_min ≤ clip_max := by
  norm_num [clip_min, clip_max]

/-- Every clamped value lies in the closed interval. -/
theorem clampQ_mem_Icc (v : ℚ) : clip_min ≤ clampQ v ∧ clampQ v ≤ clip_max := by
  constructor
  · exact le_min (le_trans (le_max_right _ _) (le_refl _)) clip_min_le_clip_max
  · exact min_le_right _ _

/-- A raw value at or below the lower bound is clamped to exactly the bound. -/
theorem clampQ_eq_min_of_le {v : ℚ} (h : v ≤ clip_min) : clampQ v = clip_min := by
  unfold clampQ
  rw [max_eq_right h, min_eq_left clip_min_le_clip_max]

/-- A raw value at or above the upper bound is clamped to exactly the bound. -/
theorem clampQ_eq_max_of_ge {v : ℚ} (h : clip_max ≤ v) : clampQ v = clip_max := by
  unfold clampQ
  rw [min_eq_right]
  exact le_trans h (le_max_left _ _)

/- Claim theorems. -/

/-- C1: in every model variant the ctcvr output column is
`clamp(raw_cvr * raw_ctr)`: the product is formed from the unclamped tower
outputs and the clamp is applied exactly once, after the multiplication
(index 2 in DCN4ESMM and DCN4DR, index 3 in DCN4DCMT); moreover, in
DCN4DCMT replacing the counterfactual tower by an arbitrary other tower
leaves the ctcvr column unchanged — the counterfactual output does not
enter the product. -/
theorem ctcvr_column_clamped_raw_product {α : Type}
    (mE : DCN4ESMM α) (mC : DCN4DCMT α) (mD : DCN4DR α) (ex : α)
    (g : List ℚ → ℚ) :
    (mE.forwardRow ex)[2]?
      = some (clampQ (mE.tower_cvr (mE.inputTower ex)
                      * mE.tower_ctr (mE.inputTower ex)))
  ∧ (mC.forwardRow ex)[3]?
      = some (clampQ (mC.tower_cvr (mC.inputTower ex)
                      * mC.tower_ctr (mC.inputTower ex)))
  ∧ (mD.forwardRow ex)[2]?
      = some (clampQ (mD.tower_cvr (mD.inputTower ex)
                      * mD.tower_ctr (mD.inputTower ex)))
  ∧ (({ mC with tower_counterfactual_cvr := g } : DCN4DCMT α).forwardRow ex)[3]?
      = (mC.forwardRow ex)[3]? :=
  ⟨rfl, rfl, rfl, rfl⟩

/-- Evaluating the degenerate model: both towers output 0, and the clamp
maps 0 (and the raw product 0·0) to exactly `clip_min`. -/
theorem cexESMM_row_eval : cexESMM.forwardRow 0 = [clip_min, clip_min, clip_min] := by
  have h0 : (0 : ℚ) ≤ clip_min := by norm_num [clip_min]
  simp [DCN4ESMM.forwardRow, cexESMM, zeroTower, clampQ_eq_min_of_le h0]

/-- C2 counterexample: a model whose towers output the raw value 0 returns
a tensor every entry of which is exactly `clip_min = 1e-15`, so the output
does not lie strictly inside the open interval (1e-15, 1-1e-15) and the
boundary value is returned. -/
theorem output_not_strictly_inside_open_interval :
    cexESMM.forward [(0 : ℚ)] = [[clip_min, clip_min, clip_min]] := by
  simp [DCN4ESMM.forward, cexESMM_row_eval]

/-- C2 (amended): for every model variant and every valid batch, every
entry of the returned output tensor lies in the CLOSED interval
[1e-15, 1-1e-15] (`torch.clamp` is inclusive, so the bounds are attained,
not excluded). -/
theorem forward_entries_in_closed_clip_range {α : Type} (x : List α) :
    (∀ (m : DCN4ESMM α), ∀ row ∈ m.forward x, ∀ v ∈ row,
        clip_min ≤ v ∧ v ≤ clip_max)
  ∧ (∀ (m : DCN4DCMT α), ∀ row ∈ m.forward x, ∀ v ∈ row,
        clip_min ≤ v ∧ v ≤ clip_max)
  ∧ (∀ (m : DCN4DR α), ∀ row ∈ m.forward x, ∀ v ∈ row,
        clip_min ≤ v ∧ v ≤ clip_max) := by
  refine ⟨?_, ?_, ?_⟩
  · intro m row hrow v hv
    obtain ⟨ex, -, rfl⟩ := List.mem_map.1 hrow
    simp only [DCN4ESMM.forwardRow, List.mem_cons, List.not_mem_nil,
      or_false] at hv
    rcases hv with rfl | rfl | rfl <;> exact clampQ_mem_Icc _
  · intro m row hrow v hv
    obtain ⟨ex, -, rfl⟩ := List.mem_map.1 hrow
    simp only [DCN4DCMT.forwardRow, List.mem_cons, List.not_mem_nil,
      or_false] at hv
    rcases hv with rfl | rfl | rfl | rfl <;> exact clampQ_mem_Icc _
  · intro m row hrow v hv
    obtain ⟨ex, -, rfl⟩ := List.mem_map.1 hrow
    simp only [DCN4DR.forwardRow, List.mem_cons, List.not_mem_nil,
      or_false] at hv
    rcases hv with rfl | rfl | rfl | rfl <;> exact clampQ_mem_Icc _

/-- C2 witness: the amended bound evaluated on a concrete model and batch. -/
theorem forward_entries_in_closed_clip_range_witness :
    clip_min ≤ clip_min ∧ clip_min ≤ clip_max :=
  (forward_entries_in_closed_clip_range [(0 : ℚ)]).1 cexESMM
    (cexESMM.forwardRow 0)
    (by simp [DCN4ESMM.forward])
    clip_min
    (by rw [cexESMM_row_eval]; exact List.mem_cons_self _ _)

/-- A user-feature list with heterogeneous embedding dimensions. -/
def hetU : List FeatureSpec := [⟨"u1", 4⟩, ⟨"u2", 8⟩]

/-- An item-feature list. -/
def hetI : List FeatureSpec := [⟨"i1", 4⟩]

/-- C3 counterexample: with user features of embed_dim 4 and 8 and one
item feature of embed_dim 4, the constructor stores
`tower_dims = 2*4 + 1*4 = 12`, but the sum of all embed_dims is
`4 + 8 + 4 = 16`: for heterogeneous embed_dims, tower_dims is NOT the sum. -/
theorem tower_dims_hetero_cex :
    ((DCN4ESMM.init hetU hetI constEmbed zeroTower zeroTower :
        Option (DCN4ESMM ℚ)).map DCN4ESMM.tower_dims = some 12)
  ∧ ((hetU.map FeatureSpec.embed_dim).sum
      + (hetI.map FeatureSpec.embed_dim).sum = 16)
  ∧ (12 ≠ 16) :=
  ⟨rfl, rfl, by decide⟩

/-- For a feature list whose embed_dims all equal `d`, the sum of the
embed_dims is the length times `d` — the quantity the constructors compute
from the first feature. -/
theorem sum_embed_dim_uniform (l : List FeatureSpec) (d : ℕ)
    (h : ∀ f ∈ l, f.embed_dim = d) :
    (l.map FeatureSpec.embed_dim).sum = l.length * d := by
  induction l with
  | nil => simp
  | cons a t ih =>
      simp only [List.map_cons, List.sum_cons, List.length_cons]
      rw [h a (List.mem_cons_self a t),
        ih (fun f hf => h f (List.mem_cons_of_mem a hf))]
      ring

/-- C3 (amended): `tower_dims` equals
`len(user)*user[0].embed_dim + len(item)*item[0].embed_dim`; on non-empty
groups whose features each share their group's first embed_dim this equals
`sum(embed_dim over user) + sum(embed_dim over item)`, in every variant. -/
theorem tower_dims_eq_embed_dim_sum {α : Type}
    (u0 i0 : FeatureSpec) (ut it : List FeatureSpec)
    (e : List FeatureSpec → α → List (List ℚ)) (t₁ t₂ t₃ : List ℚ → ℚ)
    (huu : ∀ f ∈ u0 :: ut, f.embed_dim = u0.embed_dim)
    (hii : ∀ f ∈ i0 :: it, f.embed_dim = i0.embed_dim) :
    ((DCN4ESMM.init (u0 :: ut) (i0 :: it) e t₁ t₂ :
        Option (DCN4ESMM α)).map DCN4ESMM.tower_dims
      = some (((u0 :: ut).map FeatureSpec.embed_dim).sum
              + ((i0 :: it).map FeatureSpec.embed_dim).sum))
  ∧ ((DCN4DCMT.init (u0 :: ut) (i0 :: it) e t₁ t₂ t₃ :
        Option (DCN4DCMT α)).map DCN4DCMT.tower_dims
      = some (((u0 :: ut).map FeatureSpec.embed_dim).sum
              + ((i0 :: it).map FeatureSpec.embed_dim).sum))
  ∧ ((DCN4DR.init (u0 :: ut) (i0 :: it) e t₁ t₂ t₃ :
        Option (DCN4DR α)).map DCN4DR.tower_dims
      = some (((u0 :: ut).map FeatureSpec.embed_dim).sum
              + ((i0 :: it).map FeatureSpec.embed_dim).sum)) := by
  have hS : towerDimsCalc (u0 :: ut) (i0 :: it)
      = some (((u0 :: ut).map FeatureSpec.embed_dim).sum
              + ((i0 :: it).map FeatureSpec.embed_dim).sum) := by
    rw [sum_embed_dim_uniform _ _ huu, sum_embed_dim_uniform _ _ hii]
    simp [towerDimsCalc]
  refine ⟨?_, ?_, ?_⟩ <;>
    simp only [DCN4ESMM.init, DCN4DCMT.init, DCN4DR.init, hS, Option.map_some']

/-- C3 witness: the amended statement evaluated on uniform concrete
features (two towers of embed_dim 2: tower_dims = 2 + 2 = 4). -/
theorem tower_dims_eq_embed_dim_sum_witness :
    ((DCN4ESMM.init [featU] [featI] constEmbed zeroTower zeroTower :
        Option (DCN4ESMM ℚ)).map DCN4ESMM.tower_dims
      = some (([featU].map FeatureSpec.embed_dim).sum
              + ([featI].map FeatureSpec.embed_dim).sum))
  ∧ ((DCN4DCMT.init [featU] [featI] constEmbed zeroTower zeroTower zeroTower :
        Option (DCN4DCMT ℚ)).map DCN4DCMT.tower_dims
      = some (([featU].map FeatureSpec.embed_dim).sum
              + ([featI].map FeatureSpec.embed_dim).sum))
  ∧ ((DCN4DR.init [featU] [featI] constEmbed zeroTower zeroTower zeroTower :
        Option (DCN4DR ℚ)).map DCN4DR.tower_dims
      = some (([featU].map FeatureSpec.embed_dim).sum
              + ([featI].map FeatureSpec.embed_dim).sum)) :=
  tower_dims_eq_embed_dim_sum featU featI [] [] constEmbed
    zeroTower zeroTower zeroTower (by simp) (by simp)

/-- C4: for every batch of size B, `DCN4ESMM.forward` returns B rows, each
row being exactly the three clamped values in the order
`[cvr, ctr, ctcvr]`. -/
theorem dcn4esmm_shape_and_column_order {α : Type}
    (m : DCN4ESMM α) (x : List α) :
    (m.forward x).length = x.length
  ∧ m.forward x = x.map m.forwardRow
  ∧ ∀ ex : α, m.forwardRow ex
      = [clampQ (m.tower_cvr (m.inputTower ex)),
         clampQ (m.tower_ctr (m.inputTower ex)),
         clampQ (m.tower_cvr (m.inputTower ex)
                 * m.tower_ctr (m.inputTower ex))] :=
  ⟨by simp [DCN4ESMM.forward], rfl, fun _ => rfl⟩

/-- C5: for every batch of size B, `DCN4DCMT.forward` returns B rows, each
row being exactly the four clamped values in the order
`[cvr, counterfactual_cvr, ctr, ctcvr]` (the auxiliary counterfactual
column is second). -/
theorem dcn4dcmt_shape_and_column_order {α : Type}
    (m : DCN4DCMT α) (x : List α) :
    (m.forward x).length = x.length
  ∧ m.forward x = x.map m.forwardRow
  ∧ ∀ ex : α, m.forwardRow ex
      = [clampQ (m.tower_cvr (m.inputTower ex)),
         clampQ (m.tower_counterfactual_cvr (m.inputTower ex)),
         clampQ (m.tower_ctr (m.inputTower ex)),
         clampQ (m.tower_cvr (m.inputTower ex)
                 * m.tower_ctr (m.inputTower ex))] :=
  ⟨by simp [DCN4DCMT.forward], rfl, fun _ => rfl⟩

/-- C6: for every batch of size B, `DCN4DR.forward` returns B rows, each
row being exactly the four clamped values in the order
`[cvr, ctr, ctcvr, imputation]` (the auxiliary imputation column is last,
unlike DCN4DCMT where the auxiliary column is second). -/
theorem dcn4dr_shape_and_column_order {α : Type}
    (m : DCN4DR α) (x : List α) :
    (m.forward x).length = x.length
  ∧ m.forward x = x.map m.forwardRow
  ∧ ∀ ex : α, m.forwardRow ex
      = [clampQ (m.tower_cvr (m.inputTower ex)),
         clampQ (m.tower_ctr (m.inputTower ex)),
         clampQ (m.tower_cvr (m.inputTower ex)
                 * m.tower_ctr (m.inputTower ex)),
         clampQ (m.tower_imputation (m.inputTower ex))] :=
  ⟨by simp [DCN4DR.forward], rfl, fun _ => rfl⟩

/-- C7: in every variant all towers are evaluated on one and the same
vector — the concatenation of the flattened user-feature embedding and the
flattened item-feature embedding — and every output column is derived from
tower values at exactly that vector. -/
theorem towers_share_identical_input {α : Type}
    (mE : DCN4ESMM α) (mC : DCN4DCMT α) (mD : DCN4DR α) (ex : α) :
    (∃ v, v = (mE.embedding mE.user_features ex).flatten
              ++ (mE.embedding mE.item_features ex).flatten
        ∧ mE.forwardRow ex
            = [clampQ (mE.tower_cvr v), clampQ (mE.tower_ctr v),
               clampQ (mE.tower_cvr v * mE.tower_ctr v)])
  ∧ (∃ v, v = (mC.embedding mC.user_features ex).flatten
              ++ (mC.embedding mC.item_features ex).flatten
        ∧ mC.forwardRow ex
            = [clampQ (mC.tower_cvr v),
               clampQ (mC.tower_counterfactual_cvr v),
               clampQ (mC.tower_ctr v),
               clampQ (mC.tower_cvr v * mC.tower_ctr v)])
  ∧ (∃ v, v = (mD.embedding mD.user_features ex).flatten
              ++ (mD.embedding mD.item_features ex).flatten
        ∧ mD.forwardRow ex
            = [clampQ (mD.tower_cvr v), clampQ (mD.tower_ctr v),
               clampQ (mD.tower_cvr v * mD.tower_ctr v),
               clampQ (mD.tower_imputation v)]) :=
  ⟨⟨mE.inputTower ex, rfl, rfl⟩, ⟨mC.inputTower ex, rfl, rfl⟩,
   ⟨mD.inputTower ex, rfl, rfl⟩⟩

/-- C8: forward evaluation is a pure function of (parameters, batch): in
every variant, two models that agree on all components the forward pass
reads (feature lists, shared embedding, towers) produce identical outputs
on an identical batch — there is no hidden state. -/
theorem forward_pure_function_of_params {α : Type} (x : List α) :
    (∀ m₁ m₂ : DCN4ESMM α,
        m₁.user_features = m₂.user_features →
        m₁.item_features = m₂.item_features →
        m₁.embedding = m₂.embedding →
        m₁.tower_cvr = m₂.tower_cvr →
        m₁.tower_ctr = m₂.tower_ctr →
        m₁.forward x = m₂.forward x)
  ∧ (∀ m₁ m₂ : DCN4DCMT α,
        m₁.user_features = m₂.user_features →
        m₁.item_features = m₂.item_features →
        m₁.embedding = m₂.embedding →
        m₁.tower_cvr = m₂.tower_cvr →
        m₁.tower_counterfactual_cvr = m₂.tower_counterfactual_cvr →
        m₁.tower_ctr = m₂.tower_ctr →
        m₁.forward x = m₂.forward x)
  ∧ (∀ m₁ m₂ : DCN4DR α,
        m₁.user_features = m₂.user_features →
        m₁.item_features = m₂.item_features →
        m₁.embedding = m₂.embedding →
        m₁.tower_cvr = m₂.tower_cvr →
        m₁.tower_ctr = m₂.tower_ctr →
        m₁.tower_imputation = m₂.tower_imputation →
        m₁.forward x = m₂.forward x) := by
  refine ⟨?_, ?_, ?_⟩
  · rintro ⟨u₁, i₁, e₁, d₁, c₁, t₁⟩ ⟨u₂, i₂, e₂, d₂, c₂, t₂⟩ h₁ h₂ h₃ h₄ h₅
    simp only at h₁ h₂ h₃ h₄ h₅
    subst h₁; subst h₂; subst h₃; subst h₄; subst h₅
    rfl
  · rintro ⟨u₁, i₁, e₁, d₁, c₁, f₁, t₁⟩ ⟨u₂, i₂, e₂, d₂, c₂, f₂, t₂⟩
      h₁ h₂ h₃ h₄ h₅ h₆
    simp only at h₁ h₂ h₃ h₄ h₅ h₆
    subst h₁; subst h₂; subst h₃; subst h₄; subst h₅; subst h₆
    rfl
  · rintro ⟨u₁, i₁, e₁, d₁, c₁, t₁, p₁⟩ ⟨u₂, i₂, e₂, d₂, c₂, t₂, p₂⟩
      h₁ h₂ h₃ h₄ h₅ h₆
    simp only at h₁ h₂ h₃ h₄ h₅ h₆
    subst h₁; subst h₂; subst h₃; subst h₄; subst h₅; subst h₆
    rfl

/-- C8 witness: two calls with the same concrete parameters and batch. -/
theorem forward_pure_function_of_params_witness :
    cexESMM.forward [(1 : ℚ)] = cexESMM.forward [(1 : ℚ)] :=
  (forward_pure_function_of_params [(1 : ℚ)]).1 cexESMM cexESMM
    rfl rfl rfl rfl rfl

/-- C9: every output entry of every variant lies in the CLOSED interval
[clip_min, clip_max], and the boundary values are attainable in every
variant and every column: whenever the raw (pre-clamp) value feeding output
column j — tower output or raw ctcvr product — is at or below `clip_min`,
column j is returned as exactly `clip_min`, and whenever it is at or above
`clip_max`, column j is returned as exactly `clip_max`. -/
theorem output_closed_interval_boundaries_attained {α : Type}
    (mE : DCN4ESMM α) (mC : DCN4DCMT α) (mD : DCN4DR α) (ex : α) :
    (∀ v ∈ mE.forwardRow ex, clip_min ≤ v ∧ v ≤ clip_max)
  ∧ (∀ v ∈ mC.forwardRow ex, clip_min ≤ v ∧ v ≤ clip_max)
  ∧ (∀ v ∈ mD.forwardRow ex, clip_min ≤ v ∧ v ≤ clip_max)
  ∧ (∀ (j : ℕ) (r : ℚ),
      ([mE.tower_cvr (mE.inputTower ex), mE.tower_ctr (mE.inputTower ex),
        mE.tower_cvr (mE.inputTower ex) * mE.tower_ctr (mE.inputTower ex)] :
          List ℚ)[j]? = some r →
        (r ≤ clip_min → (mE.forwardRow ex)[j]? = some clip_min)
      ∧ (clip_max ≤ r → (mE.forwardRow ex)[j]? = some clip_max))
  ∧ (∀ (j : ℕ) (r : ℚ),
      ([mC.tower_cvr (mC.inputTower ex),
        mC.tower_counterfactual_cvr (mC.inputTower ex),
        mC.tower_ctr (mC.inputTower ex),
        mC.tower_cvr (mC.inputTower ex) * mC.tower_ctr (mC.inputTower ex)] :
          List ℚ)[j]? = some r →
        (r ≤ clip_min → (mC.forwardRow ex)[j]? = some clip_min)
      ∧ (clip_max ≤ r → (mC.forwardRow ex)[j]? = some clip_max))
  ∧ (∀ (j : ℕ) (r : ℚ),
      ([mD.tower_cvr (mD.inputTower ex), mD.tower_ctr (mD.inputTower ex),
        mD.tower_cvr (mD.inputTower ex) * mD.tower_ctr (mD.inputTower ex),
        mD.tower_imputation (mD.inputTower ex)] :
          List ℚ)[j]? = some r →
        (r ≤ clip_min → (mD.forwardRow ex)[j]? = some clip_min)
      ∧ (clip_max ≤ r → (mD.forwardRow ex)[j]? = some clip_max)) := by
  refine ⟨?_, ?_, ?_, ?_, ?_, ?_⟩
  · intro v hv
    simp only [DCN4ESMM.forwardRow, List.mem_cons, List.not_mem_nil,
      or_false] at hv
    rcases hv with rfl | rfl | rfl <;> exact clampQ_mem_Icc _
  · intro v hv
    simp only [DCN4DCMT.forwardRow, List.mem_cons, List.not_mem_nil,
      or_false] at hv
    rcases hv with rfl | rfl | rfl | rfl <;> exact clampQ_mem_Icc _
  · intro v hv
    simp only [DCN4DR.forwardRow, List.mem_cons, List.not_mem_nil,
      or_false] at hv
    rcases hv with rfl | rfl | rfl | rfl <;> exact clampQ_mem_Icc _
  · intro j r hj
    rcases j with _ | _ | _ | j
    · simp at hj
      subst hj
      exact ⟨fun h => by simp [DCN4ESMM.forwardRow, clampQ_eq_min_of_le h],
             fun h => by simp [DCN4ESMM.forwardRow, clampQ_eq_max_of_ge h]⟩
    · simp at hj
      subst hj
      exact ⟨fun h => by simp [DCN4ESMM.forwardRow, clampQ_eq_min_of_le h],
             fun h => by simp [DCN4ESMM.forwardRow, clampQ_eq_max_of_ge h]⟩
    · simp at hj
      subst hj
      exact ⟨fun h => by simp [DCN4ESMM.forwardRow, clampQ_eq_min_of_le h],
             fun h => by simp [DCN4ESMM.forwardRow, clampQ_eq_max_of_ge h]⟩
    · simp at hj
  · intro j r hj
    rcases j with _ | _ | _ | _ | j
    · simp at hj
      subst hj
      exact ⟨fun h => by simp [DCN4DCMT.forwardRow, clampQ_eq_min_of_le h],
             fun h => by simp [DCN4DCMT.forwardRow, clampQ_eq_max_of_ge h]⟩
    · simp at hj
      subst hj
      exact ⟨fun h => by simp [DCN4DCMT.forwardRow, clampQ_eq_min_of_le h],
             fun h => by simp [DCN4DCMT.forwardRow, clampQ_eq_max_of_ge h]⟩
    · simp at hj
      subst hj
      exact ⟨fun h => by simp [DCN4DCMT.forwardRow, clampQ_eq_min_of_le h],
             fun h => by simp [DCN4DCMT.forwardRow, clampQ_eq_max_of_ge h]⟩
    · simp at hj
      subst hj
      exact ⟨fun h => by simp [DCN4DCMT.forwardRow, clampQ_eq_min_of_le h],
             fun h => by simp [DCN4DCMT.forwardRow, clampQ_eq_max_of_ge h]⟩
    · simp at hj
  · intro j r hj
    rcases j with _ | _ | _ | _ | j
    · simp at hj
      subst hj
      exact ⟨fun h => by simp [DCN4DR.forwardRow, clampQ_eq_min_of_le h],
             fun h => by simp [DCN4DR.forwardRow, clampQ_eq_max_of_ge h]⟩
    · simp at hj
      subst hj
      exact ⟨fun h => by simp [DCN4DR.forwardRow, clampQ_eq_min_of_le h],
             fun h => by simp [DCN4DR.forwardRow, clampQ_eq_max_of_ge h]⟩
    · simp at hj
      subst hj
      exact ⟨fun h => by simp [DCN4DR.forwardRow, clampQ_eq_min_of_le h],
             fun h => by simp [DCN4DR.forwardRow, clampQ_eq_max_of_ge h]⟩
    · simp at hj
      subst hj
      exact ⟨fun h => by simp [DCN4DR.forwardRow, clampQ_eq_min_of_le h],
             fun h => by simp [DCN4DR.forwardRow, clampQ_eq_max_of_ge h]⟩
    · simp at hj

/-- C9 witness: in the zero-tower `DCN4DR` model the raw cvr output 0 is at
the lower end, and the returned cvr column is exactly `clip_min`. -/
theorem output_closed_interval_boundaries_attained_witness :
    (cexDR.forwardRow 0)[0]? = some clip_min :=
  ((output_closed_interval_boundaries_attained cexESMM okDCMT cexDR
      0).2.2.2.2.2 0 0 rfl).1 (by norm_num [clip_min])

/-- C10: constructing any variant with an empty user-feature list or an
empty item-feature list fails at construction time (the `tower_dims`
computation indexes the first feature, raising IndexError, modelled as
`none`) — before any forward call can be made. -/
theorem empty_features_fail_at_construction {α : Type}
    (u i : List FeatureSpec) (e : List FeatureSpec → α → List (List ℚ))
    (t₁ t₂ t₃ : List ℚ → ℚ) (h : u = [] ∨ i = []) :
    DCN4ESMM.init u i e t₁ t₂ = (none : Option (DCN4ESMM α))
  ∧ DCN4DCMT.init u i e t₁ t₂ t₃ = (none : Option (DCN4DCMT α))
  ∧ DCN4DR.init u i e t₁ t₂ t₃ = (none : Option (DCN4DR α)) := by
  have hT : towerDimsCalc u i = none := by
    rcases h with rfl | rfl
    · rfl
    · cases u <;> rfl
  refine ⟨?_, ?_, ?_⟩ <;>
    simp only [DCN4ESMM.init, DCN4DCMT.init, DCN4DR.init, hT]

/-- C10 witness: concrete empty user-feature list. -/
theorem empty_features_fail_at_construction_witness :
    DCN4ESMM.init [] [featI] constEmbed zeroTower zeroTower
      = (none : Option (DCN4ESMM ℚ))
  ∧ DCN4DCMT.init [] [featI] constEmbed zeroTower zeroTower zeroTower
      = (none : Option (DCN4DCMT ℚ))
  ∧ DCN4DR.init [] [featI] constEmbed zeroTower zeroTower zeroTower
      = (none : Option (DCN4DR ℚ)) :=
  empty_features_fail_at_construction [] [featI] constEmbed
    zeroTower zeroTower zeroTower (Or.inl rfl)

end NISE
